import Mathlib

/-!
Verification of the open-precense content-generation pipeline.

The pipeline lives in `src/app/api/generate/route.ts` (the `POST` handler and
its helpers `firecrawl`, `generatePageJSON`, `userPrompt`) and in the client
file `src/unnamed/part_000` (`toMarkdown`, `stripHtml`).  The code manipulates
dynamically typed JSON-like values, so we embed it over an inductive type
`JVal` of JavaScript values (with an explicit `undef` constructor for
`undefined`).  Host capabilities that are not part of the repository — `fetch`
(modelled by passing each call's outcome as a `FetchOutcome` argument),
`JSON.parse`, `JSON.stringify`, and the DOM text reduction used by
`stripHtml` — are passed in as function parameters, exactly as the spec treats
them (black-box collaborators).  Everything else is translated directly from
the source.
-/

/-- JavaScript runtime values as they occur in this pipeline: the JSON values
plus `undefined`.  Objects keep their fields in insertion order, matching
JavaScript property enumeration order. -/
inductive JVal where
  | undef : JVal
  | null : JVal
  | bool : Bool → JVal
  | num : Int → JVal
  | str : String → JVal
  | arr : List JVal → JVal
  | obj : List (String × JVal) → JVal

/-- First-match field lookup in an object's field list; `undef` when the key is
absent (JavaScript property read on a plain object). -/
def lookupField : List (String × JVal) → String → JVal
  | [], _ => JVal.undef
  | (k, v) :: rest, key => if k = key then v else lookupField rest key

/-- JavaScript property read `base.key` / `base?.key` for the kinds of base
values this pipeline can meet.  A nullish base yields `undef` (the `?.` form;
the plain form would throw, which the callers that can meet a nullish base
model separately).  Primitives box to objects without own string-keyed
properties apart from `length` on strings; arrays expose `length`. -/
def jsGetField : JVal → String → JVal
  | .obj fs, key => lookupField fs key
  | .arr xs, key => if key = "length" then .num xs.length else JVal.undef
  | .str s, key => if key = "length" then .num s.length else JVal.undef
  | _, _ => JVal.undef

/-- JavaScript indexed read `base?.[i]` for a natural index. -/
def jsIndex : JVal → Nat → JVal
  | .arr xs, i => xs.getD i JVal.undef
  | .obj fs, i => lookupField fs (toString i)
  | .str s, i =>
      match s.data.get? i with
      | some c => .str (String.mk [c])
      | none => JVal.undef
  | _, _ => JVal.undef

/-- A value is nullish (`null` or `undefined`). -/
def jsNullish : JVal → Bool
  | JVal.undef => true
  | .null => true
  | _ => false

/-- A value is falsy: `undefined`, `null`, `false`, `0`, `""`. -/
def jsFalsy : JVal → Bool
  | JVal.undef => true
  | .null => true
  | .bool b => !b
  | .num n => n = 0
  | .str s => s = ""
  | _ => false

/-- The nullish-coalescing operator `a ?? b`. -/
def jsCoalesce (a b : JVal) : JVal :=
  if jsNullish a then b else a

mutual

/-- JavaScript string coercion `String(v)` as used by template literals. -/
def jsToString : JVal → String
  | JVal.undef => "undefined"
  | .null => "null"
  | .bool b => cond b "true" "false"
  | .num n => toString n
  | .str s => s
  | .obj _ => "[object Object]"
  | .arr xs => jsArrJoin xs

/-- `Array.prototype.toString`: elements joined with commas, nullish elements
rendered as the empty string. -/
def jsArrJoin : List JVal → String
  | [] => ""
  | [v] => jsArrElem v
  | v :: rest => jsArrElem v ++ "," ++ jsArrJoin rest

/-- One array element under `Array.prototype.toString`. -/
def jsArrElem : JVal → String
  | JVal.undef => ""
  | .null => ""
  | .bool b => cond b "true" "false"
  | .num n => toString n
  | .str s => s
  | .obj _ => "[object Object]"
  | .arr xs => jsArrJoin xs

end

/-- `Array.prototype.join(sep)` on an already-stringified list. -/
def jsJoin (sep : String) : List String → String
  | [] => ""
  | [x] => x
  | x :: rest => x ++ sep ++ jsJoin sep rest

/-- Leading-whitespace removal on character lists. -/
def trimLeftL (l : List Char) : List Char :=
  l.dropWhile Char.isWhitespace

/-- Trailing-whitespace removal on character lists. -/
def trimRightL (l : List Char) : List Char :=
  (l.reverse.dropWhile Char.isWhitespace).reverse

/-- `String.prototype.trim()`: strip leading and trailing whitespace. -/
def jsTrim (s : String) : String :=
  String.mk (trimRightL (trimLeftL s.data))

/-- Character-wise lower-casing, modelling the case-insensitive (`/i`) regex
comparison against an ASCII pattern. -/
def lowerStr (s : String) : String :=
  String.mk (s.data.map Char.toLower)

/-- The test `/^https?:\/\//i.test(s)`: after case-folding, the string starts
with `http://` or `https://`. -/
def httpTest (s : String) : Bool :=
  decide ((lowerStr s).data.take 7 = "http://".data) ||
    decide ((lowerStr s).data.take 8 = "https://".data)

/-! ## The Firecrawl aggregator (`firecrawl`, route.ts lines 37-65) -/

/-- Outcome of one `fetch` call as the code consumes it: either `!res.ok`
with the status and the (best-effort) body text, or an ok response whose body
already parsed as JSON.  The network itself is a black-box collaborator, so
each call's outcome is an input of the model. -/
inductive FetchOutcome where
  | failure : Nat → String → FetchOutcome
  | success : JVal → FetchOutcome

/-- Line 38: `const isUrl = /^https?:\/\//i.test(q.trim())`. -/
def firecrawlIsUrl (q : String) : Bool :=
  httpTest (jsTrim q)

/-- Line 39: endpoint selection. -/
def firecrawlEndpoint (q : String) : String :=
  if firecrawlIsUrl q then "/scrape" else "/search"

/-- Line 40: request body selection, built from the untrimmed `q`. -/
def firecrawlBody (q : String) : JVal :=
  if firecrawlIsUrl q then .obj [("url", .str q)]
  else .obj [("query", .str q), ("limit", .num 5)]

/-- Line 61: the string a non-nullish record renders to under the template
literal `${r.title ?? ""}\n${r.content ?? ""}` (property reads on a
non-nullish base never throw; absent fields give `undefined`, caught by
`?? ""`). -/
def firecrawlRecordRender (r : JVal) : String :=
  jsToString (jsCoalesce (jsGetField r "title") (.str "")) ++ "\n" ++
    jsToString (jsCoalesce (jsGetField r "content") (.str ""))

/-- Line 61: one result record under the map callback.  `r.title` is a PLAIN
property access, so a `null` or `undefined` element of `results` makes the
read throw a `TypeError`; any other element renders via
`firecrawlRecordRender`. -/
def firecrawlRecordLine (r : JVal) : Except String String :=
  match r with
  | .null => .error "Cannot read properties of null (reading \x27title\x27)"
  | JVal.undef =>
      .error "Cannot read properties of undefined (reading \x27title\x27)"
  | _ => .ok (firecrawlRecordRender r)

/-- Lines 60-62: `data.results.map(...)` — the callback runs left to right
and the first throwing element aborts the whole call. -/
def firecrawlMapRecords : List JVal → Except String (List String)
  | [] => .ok []
  | r :: rest =>
      match firecrawlRecordLine r with
      | .error e => .error e
      | .ok line =>
          match firecrawlMapRecords rest with
          | .error e => .error e
          | .ok lines => .ok (line :: lines)

/-- Lines 58-64: normalization of the parsed ok-response.  If `data?.results`
is an array, map the records through the line-61 callback (throwing on a
nullish element) and join with the visible separator; otherwise return
`data?.content ?? JSON.stringify(data)` (the `content` field verbatim when
non-nullish, else the host serialization, passed in as `stringify`). -/
def firecrawlNormalize (stringify : JVal → String) (data : JVal) :
    Except String JVal :=
  match jsGetField data "results" with
  | .arr rs =>
      match firecrawlMapRecords rs with
      | .error e => .error e
      | .ok lines => .ok (.str (jsJoin "\n\n---\n\n" lines))
  | _ => .ok (jsCoalesce (jsGetField data "content") (.str (stringify data)))

/-- The whole `firecrawl` helper given the fetch outcome: a failing response
throws (line 55), an ok response is normalized (which can itself throw on a
nullish `results` element). -/
def firecrawlRun (stringify : JVal → String) (q : String)
    (resp : FetchOutcome) : Except String JVal :=
  match resp with
  | .failure status text =>
      .error ("Firecrawl " ++ firecrawlEndpoint q ++ " failed: " ++
        toString status ++ " " ++ text)
  | .success data => firecrawlNormalize stringify data

/-! ## The prompt composer (`userPrompt`, route.ts lines 121-178) -/

/-- Line 126: `(scraped || "").slice(0, 15000)` — the scraped text as embedded
in the user prompt, truncated to 15000 UTF-16 units (modelled as characters).
For a string argument `scraped || ""` is the identity, kept for fidelity. -/
def scrapedForPrompt (scraped : String) : String :=
  String.mk ((if scraped = "" then "" else scraped).data.take 15000)

/-- Lines 122-132: the role-independent part of the user prompt. -/
def userPromptBase (q scraped : String) : String :=
  "\nQUERY: " ++ q ++ "\n\nSCRAPED_CONTENT:\n" ++ scrapedForPrompt scraped ++
    "\n\nGOALS:\n- Produce structured sections tailored to the selected role.\n- Also return a complete \"html\" page assembled from those sections.\n- Omit sections if source info is missing (do NOT invent).\n"

/-- Lines 137-145: the agent-role suffix. -/
def agentSuffix : String :=
  "\nROLE: Real Estate Agent (Listing/Area Landing)\nSECTIONS (suggested):\n- Hero (address or hook)\n- Listing Highlights (bulleted facts)\n- Property Description (concise narrative)\n- Neighborhood Vibe (schools/amenities only if present)\n- Call to Action (contact mailto/tel placeholders)\n"

/-- Lines 151-161: the loan-role suffix. -/
def loanSuffix : String :=
  "\nROLE: Loan Officer (Programs/Rates Landing)\nSECTIONS (suggested):\n- Hero (clear value prop)\n- Programs Overview (Conventional/FHA/VA/USDA if present)\n- Rates Summary (qualitative; no guarantees)\n- FAQ (docs needed, timelines)\n- Call to Action (contact mailto/tel placeholders)\nDISCLAIMERS:\n- Never claim live or guaranteed rates if specifics are missing.\n"

/-- Lines 167-177: the profile-role suffix (the fall-through branch). -/
def profileSuffix : String :=
  "\nROLE: Profile Builder (Agent/Team/Pro)\nSECTIONS (suggested):\n- Hero (name, title, market/service area)\n- Bio (short + extended; summarize source)\n- Services / Specialties (from source only)\n- Reviews/Press (include only if present)\n- Links (website/socials if present)\n- Contact (mailto/tel placeholders if not provided)\n"

/-- Lines 121-178: `userPrompt(role, q, scraped)`.  The role reaches this code
unchecked from the request body, so it is modelled as a runtime value compared
with `===` against the two literals; anything else falls through to the
profile branch, as in the source. -/
def userPrompt (role : JVal) (q scraped : String) : String :=
  userPromptBase q scraped ++
    (match role with
     | .str s => if s = "agent" then agentSuffix
                 else if s = "loan" then loanSuffix
                 else profileSuffix
     | _ => profileSuffix)

/-! ## The schema-requesting generator (`generatePageJSON`, lines 67-102) -/

/-- Line 100: the response text `data?.choices?.[0]?.message?.content`. -/
def openrouterContent (data : JVal) : JVal :=
  jsGetField (jsGetField (jsIndex (jsGetField data "choices") 0) "message")
    "content"

/-- Line 100: `const text = data?.choices?.[0]?.message?.content ?? "{}"`,
followed by the implicit string coercion `JSON.parse` applies to its
argument. -/
def generateText (data : JVal) : String :=
  jsToString (jsCoalesce (openrouterContent data) (.str "\x7b\x7d"))

/-- Lines 95-101 of `generatePageJSON` given the fetch outcome: a failing
response throws (line 96); an ok response has its text extracted, defaulted to
`"{}"` when nullish, and handed to the host `JSON.parse` (passed in as
`parse`, whose `Except.error` carries the thrown message). -/
def generateRun (parse : String → Except String JVal)
    (resp : FetchOutcome) : Except String JVal :=
  match resp with
  | .failure status text =>
      .error ("OpenRouter failed: " ++ toString status ++ " " ++ text)
  | .success data => parse (generateText data)

/-! ## Defaulting and the `POST` handler (lines 12-33) -/

/-- The default `meta` object of line 24. -/
def metaDefault : JVal :=
  .obj [("title", .str "Generated Page"), ("description", .str "")]

/-- The placeholder `html` fragment of line 26. -/
def htmlDefault : String :=
  "<main class=\x27container\x27><h1>Generated Page</h1></main>"

/-- JavaScript property write `obj[key] = v` on a plain object: replace the
first binding of `key` in place, or append a fresh binding (insertion
order). -/
def setField : List (String × JVal) → String → JVal → List (String × JVal)
  | [], key, v => [(key, v)]
  | (k, w) :: rest, key, v =>
      if k = key then (k, v) :: rest else (k, w) :: setField rest key v

/-- The nullish assignment `obj.key ??= v` on a plain object's fields. -/
def setDefaultField (fs : List (String × JVal)) (key : String) (v : JVal) :
    List (String × JVal) :=
  if jsNullish (lookupField fs key) then setField fs key v else fs

/-- Lines 24-26 applied to an object candidate: the three `??=` statements in
source order. -/
def defaultedFields (fs : List (String × JVal)) : List (String × JVal) :=
  setDefaultField
    (setDefaultField (setDefaultField fs "meta" metaDefault)
      "sections" (.arr []))
    "html" (.str htmlDefault)

/-- Lines 24-26 on the raw parsed candidate.  On an object the three nullish
assignments run; on `null`/`undefined` reading `.meta` throws a `TypeError`;
on a primitive the read yields `undefined` so the strict-mode assignment
throws.  On an array the assignments attach non-index properties, which the
JSON serialization of the response then drops, so the value observed by the
caller is the unchanged array; the model tracks that observed value. -/
def applyDefaults : JVal → Except String JVal
  | .obj fs => .ok (.obj (defaultedFields fs))
  | .arr xs => .ok (.arr xs)
  | .null => .error "Cannot set properties of null (setting \x27meta\x27)"
  | JVal.undef => .error "Cannot set properties of undefined (setting \x27meta\x27)"
  | _ => .error "Cannot create property \x27meta\x27 on primitive value"

/-- Line 14: the `q` of `const { q, role = "agent" } = await req.json()`. -/
def destructuredQ (body : JVal) : JVal :=
  jsGetField body "q"

/-- Line 14: the `role` of the same destructuring; the default applies exactly
when the property is `undefined` (not when it is `null`). -/
def destructuredRole (body : JVal) : JVal :=
  match jsGetField body "role" with
  | JVal.undef => .str "agent"
  | v => v

/-- Line 31: `err?.message || "Generation failed."` for a thrown error whose
message is `m`. -/
def errOrDefault (m : String) : String :=
  if m = "" then "Generation failed." else m

/-- The value `scraped` must expose to `(scraped || "").slice(0, 15000)` when
the prompt is built: a string passes through (its character truncation is
modelled by `scrapedForPrompt` inside `userPrompt`); an array also has a
`.slice` method, so the call proceeds and the template embeds the string
coercion of the element-sliced array; a falsy non-string becomes `""`; any
other truthy non-string (number, boolean, plain object) has no `.slice`
method and the call throws. -/
def scrapedAsPromptInput : JVal → Except String String
  | .str s => .ok s
  | .arr xs => .ok (jsToString (JVal.arr (xs.take 15000)))
  | v => if jsFalsy v then .ok "" else .error "scraped.slice is not a function"

/-- The observable outcome of one `POST` request: the 200 response
`{ page, q, role, scraped }`, the 400 response of line 15, or the 500 response
of the catch block. -/
inductive PostResult where
  | success : JVal → JVal → JVal → JVal → PostResult
  | clientError : String → PostResult
  | serverError : String → PostResult

/-- Lines 12-33: the `POST` handler, given the host `JSON.parse`, the host
`JSON.stringify`, the outcomes of the two sequential `fetch` calls, and the
already-parsed request body.  Any thrown error is caught on line 29 and
surfaced as a 500 with `err?.message || "Generation failed."`. -/
def POST (parse : String → Except String JVal) (stringify : JVal → String)
    (fcResp orResp : FetchOutcome) (body : JVal) : PostResult :=
  match body with
  | .null =>
      .serverError (errOrDefault
        "Cannot destructure property \x27q\x27 of request body as it is null.")
  | JVal.undef =>
      .serverError (errOrDefault
        "Cannot destructure property \x27q\x27 of request body as it is undefined.")
  | _ =>
      if jsFalsy (destructuredQ body) then
        .clientError "Missing input \x27q\x27."
      else
        match destructuredQ body with
        | .str q =>
            match firecrawlRun stringify q fcResp with
            | .error m => .serverError (errOrDefault m)
            | .ok scrapedV =>
                match scrapedAsPromptInput scrapedV with
                | .error m => .serverError (errOrDefault m)
                | .ok _sIn =>
                    match generateRun parse orResp with
                    | .error m => .serverError (errOrDefault m)
                    | .ok pageRaw =>
                        match applyDefaults pageRaw with
                        | .error m => .serverError (errOrDefault m)
                        | .ok page =>
                            .success page (destructuredQ body)
                              (destructuredRole body) scrapedV
        | _ => .serverError (errOrDefault "q.trim is not a function")

/-! ## The Markdown exporter (`toMarkdown` / `stripHtml`, part_000 lines
198-221) -/

/-- The `meta` object of the client-side `GenPage` type: both fields
optional. -/
structure MetaV where
  title : Option String
  description : Option String

/-- One section of the client-side `GenPage` type. -/
structure SectionV where
  id : String
  title : String
  html : String

/-- The client-side `GenPage` type (part_000 lines 6-10): every top-level
field optional. -/
structure GenPage where
  meta : Option MetaV
  sections : Option (List SectionV)
  html : Option String

/-- The `x || dflt` idiom on an optionally-present string: the default is used
when the value is absent (`undefined`) or the empty string (both falsy). -/
def strTruthyOr (v : Option String) (dflt : String) : String :=
  match v with
  | some s => if s = "" then dflt else s
  | none => dflt

/-- Lines 217-221: `stripHtml(html)` — write the fragment into a detached
element and read back its rendered text, trimmed.  The DOM reduction
(`innerHTML` assignment followed by `textContent`) is host functionality and
is passed in as `domText`; for a detached element `textContent` is always a
string, so the `|| el.innerText || ""` fallbacks collapse and only the final
`.trim()` remains in the model. -/
def stripHtml (domText : String → String) (html : String) : String :=
  jsTrim (domText html)

/-- Lines 198-215: `toMarkdown(page)`. -/
def toMarkdown (domText : String → String) (page : Option GenPage) : String :=
  match page with
  | none => "# Generated Page\n\n_No content yet._"
  | some p =>
      let title := strTruthyOr (p.meta.bind MetaV.title) "Generated Page"
      let desc := strTruthyOr (p.meta.bind MetaV.description) ""
      let headParts := ["# " ++ title, ""]
      let descParts :=
        headParts ++ (if desc = "" then [] else ["> " ++ desc, ""])
      let allParts :=
        match p.sections with
        | some (s0 :: rest) =>
            descParts ++
              ((s0 :: rest).map (fun s =>
                ["## " ++ (if s.title = "" then s.id else s.title), "",
                  stripHtml domText (if s.html = "" then "" else s.html),
                  ""])).flatten
        | _ => descParts ++ ["_No sections provided._"]
      jsTrim (jsJoin "\n" allParts)

/-! ## Helper lemmas -/

/-- Strings with equal character data are equal. -/
theorem str_ext {s t : String} (h : s.data = t.data) : s = t := by
  cases s
  cases t
  cases h
  rfl

/-- Unfolding the character data of `String.mk`. -/
theorem data_mk (l : List Char) : (String.mk l).data = l := rfl

/-- A string whose data is a cons is not empty. -/
theorem ne_empty_of_data_cons {s : String} {c : Char} {l : List Char}
    (h : s.data = c :: l) : s ≠ "" := by
  intro he
  rw [he] at h
  exact List.noConfusion h

/-- `dropWhile` never lengthens a list. -/
theorem length_dropWhile_le (p : Char → Bool) :
    ∀ l : List Char, (l.dropWhile p).length ≤ l.length
  | [] => Nat.le_refl _
  | c :: t => by
    rw [List.dropWhile_cons]
    split
    · exact Nat.le_trans (length_dropWhile_le p t) (Nat.le_succ _)
    · exact Nat.le_refl _

/-- If `dropWhile` keeps a cons unchanged, its head fails the predicate. -/
theorem head_false_of_dropWhile_self {p : Char → Bool} {c : Char}
    {t : List Char} (h : (c :: t).dropWhile p = c :: t) : p c = false := by
  by_contra hb
  rw [Bool.not_eq_false] at hb
  rw [List.dropWhile_cons_of_pos hb] at h
  have hlen := congrArg List.length h
  simp only [List.length_cons] at hlen
  have := length_dropWhile_le p t
  omega

/-- Writing a field then reading it back yields the written value. -/
theorem lookupField_setField_self (k : String) (v : JVal) :
    ∀ fs : List (String × JVal), lookupField (setField fs k v) k = v
  | [] => by simp [setField, lookupField]
  | (k', w) :: rest => by
    by_cases h : k' = k
    · simp [setField, lookupField, h]
    · simp [setField, lookupField, h, lookupField_setField_self k v rest]

/-- Writing one field leaves reads of another field unchanged. -/
theorem lookupField_setField_ne {k k' : String} (hne : k' ≠ k) (v : JVal) :
    ∀ fs : List (String × JVal),
      lookupField (setField fs k v) k' = lookupField fs k'
  | [] => by simp [setField, lookupField, Ne.symm hne]
  | (k'', w) :: rest => by
    by_cases h : k'' = k
    · subst h
      simp [setField, lookupField, Ne.symm hne]
    · simp [setField, lookupField, h, lookupField_setField_ne hne v rest]

/-- Nullish assignment to one field leaves reads of another unchanged. -/
theorem lookupField_setDefaultField_ne {k k' : String} (hne : k' ≠ k)
    (v : JVal) (fs : List (String × JVal)) :
    lookupField (setDefaultField fs k v) k' = lookupField fs k' := by
  unfold setDefaultField
  split
  · exact lookupField_setField_ne hne v fs
  · rfl

/-- After `obj.key ??= v` with a non-nullish `v`, reading `key` is
non-nullish. -/
theorem nullish_lookupField_setDefaultField_self (v : JVal)
    (hv : jsNullish v = false) (k : String) (fs : List (String × JVal)) :
    jsNullish (lookupField (setDefaultField fs k v) k) = false := by
  unfold setDefaultField
  split
  · rw [lookupField_setField_self]
    exact hv
  · rename_i h
    simpa using h

/-- `obj.key ??= v` writes `v` exactly when the field was nullish. -/
theorem lookupField_setDefaultField_of_nullish {k : String}
    {fs : List (String × JVal)} (h : jsNullish (lookupField fs k) = true)
    (v : JVal) : lookupField (setDefaultField fs k v) k = v := by
  unfold setDefaultField
  rw [if_pos h]
  exact lookupField_setField_self k v fs

/-- `obj.key ??= v` is the identity when the field was not nullish. -/
theorem setDefaultField_of_not_nullish {k : String}
    {fs : List (String × JVal)} (h : jsNullish (lookupField fs k) = false)
    (v : JVal) : setDefaultField fs k v = fs := by
  unfold setDefaultField
  rw [h]
  simp

/-- Characterization of the translated regex test: it succeeds exactly when
the case-folded string extends `http://` or `https://`. -/
theorem httpTest_iff (s : String) :
    httpTest s = true ↔
      (∃ r : String, lowerStr s = "http://" ++ r) ∨
      (∃ r : String, lowerStr s = "https://" ++ r) := by
  unfold httpTest
  rw [Bool.or_eq_true, decide_eq_true_eq, decide_eq_true_eq]
  constructor
  · rintro (h | h)
    · refine Or.inl ⟨String.mk ((lowerStr s).data.drop 7), str_ext ?_⟩
      rw [String.data_append, data_mk, ← h, List.take_append_drop]
    · refine Or.inr ⟨String.mk ((lowerStr s).data.drop 8), str_ext ?_⟩
      rw [String.data_append, data_mk, ← h, List.take_append_drop]
  · rintro (⟨r, h⟩ | ⟨r, h⟩)
    · refine Or.inl ?_
      have hd := congrArg String.data h
      rw [String.data_append] at hd
      rw [hd]
      have h7 : ("http://".data).length = 7 := rfl
      rw [← h7]
      exact List.take_left _ _
    · refine Or.inr ?_
      have hd := congrArg String.data h
      rw [String.data_append] at hd
      rw [hd]
      have h8 : ("https://".data).length = 8 := rfl
      rw [← h8]
      exact List.take_left _ _

/-! ## Claim C1: totality of the defaulting step -/

/-- C1 counterexample: the defaulting step is not total.  On the raw candidate
`null` (valid structured data the generator can return), the first statement
`page.meta ??= ...` reads a property of `null` and throws, so the request
fails instead of returning a defaulted page — the claim asserts totality for
`null` explicitly. -/
theorem applyDefaults_null_fails :
    applyDefaults JVal.null =
      Except.error "Cannot set properties of null (setting \x27meta\x27)" := rfl

/-- C1 (amended): on any object-shaped raw candidate (including `\x7b\x7d`)
the defaulting statements of route.ts lines 24-26 succeed and give a page
whose `meta`, `sections` and `html` fields are all present and non-nullish.
Totality over all candidates, per-field `meta` completeness, and
non-emptiness of a generator-supplied `html` are not guaranteed by the
code. -/
theorem applyDefaults_object_total (fs : List (String × JVal)) :
    applyDefaults (JVal.obj fs) = .ok (.obj (defaultedFields fs)) ∧
    jsNullish (lookupField (defaultedFields fs) "meta") = false ∧
    jsNullish (lookupField (defaultedFields fs) "sections") = false ∧
    jsNullish (lookupField (defaultedFields fs) "html") = false := by
  refine ⟨rfl, ?_, ?_, ?_⟩
  · unfold defaultedFields
    rw [lookupField_setDefaultField_ne (by decide) _ _,
      lookupField_setDefaultField_ne (by decide) _ _]
    exact nullish_lookupField_setDefaultField_self metaDefault rfl _ _
  · unfold defaultedFields
    rw [lookupField_setDefaultField_ne (by decide) _ _]
    exact nullish_lookupField_setDefaultField_self (.arr []) rfl _ _
  · unfold defaultedFields
    exact nullish_lookupField_setDefaultField_self (.str htmlDefault) rfl _ _

/-! ## Claim C2: per-field meta defaulting -/

/-- The stub generator result of the spec's end-to-end scenario:
`{"meta":{"title":"123 Main St"},"sections":[],"html":"<h1>123 Main St</h1>"}`. -/
def rawCandidate123 : JVal :=
  .obj [("meta", .obj [("title", .str "123 Main St")]),
    ("sections", .arr []),
    ("html", .str "<h1>123 Main St</h1>")]

/-- C2 counterexample: `page.meta ??= ...` fills `meta` only when the whole
field is nullish; it never fills individual missing sub-fields.  For the
spec's own scenario (`meta = {"title":"123 Main St"}`), the final page's
`meta.description` is absent (`undefined`), not the claimed `""`. -/
theorem meta_description_not_filled :
    applyDefaults rawCandidate123 = .ok rawCandidate123 ∧
    jsGetField (jsGetField rawCandidate123 "meta") "description" = JVal.undef ∧
    JVal.undef ≠ JVal.str "" :=
  ⟨rfl, rfl, fun h => JVal.noConfusion h⟩

/-- C2 (amended): the defaulting of `meta` is whole-field only.  If the raw
candidate's `meta` is nullish it is replaced by
`{ title: "Generated Page", description: "" }`; otherwise — object or not,
complete or not — it passes through verbatim, so a `meta` missing
`description` keeps `description` absent. -/
theorem meta_defaulting_whole_field (fs : List (String × JVal)) :
    (jsNullish (lookupField fs "meta") = true →
      lookupField (defaultedFields fs) "meta" = metaDefault) ∧
    (jsNullish (lookupField fs "meta") = false →
      lookupField (defaultedFields fs) "meta" = lookupField fs "meta") := by
  constructor
  · intro h
    unfold defaultedFields
    rw [lookupField_setDefaultField_ne (by decide) _ _,
      lookupField_setDefaultField_ne (by decide) _ _]
    exact lookupField_setDefaultField_of_nullish h _
  · intro h
    unfold defaultedFields
    rw [lookupField_setDefaultField_ne (by decide) _ _,
      lookupField_setDefaultField_ne (by decide) _ _,
      setDefaultField_of_not_nullish h _]

/-- C2 witness: on the spec's stub candidate, whose `meta` is present, the
final `meta` is passed through verbatim — title only, no `description`. -/
theorem meta_defaulting_whole_field_witness :
    lookupField (defaultedFields
        [("meta", JVal.obj [("title", JVal.str "123 Main St")]),
          ("sections", JVal.arr []),
          ("html", JVal.str "<h1>123 Main St</h1>")]) "meta" =
      JVal.obj [("title", JVal.str "123 Main St")] :=
  (meta_defaulting_whole_field _).2 rfl

/-! ## Claim C3: the 15,000-character cap -/

/-- A scraped content value one character over the cap. -/
def longContent : String := String.mk (List.replicate 15001 'a')

/-- C3 counterexample: the value produced by the Aggregator is not capped.
For a provider response `{ content: <15001 chars> }` the `firecrawl` helper
returns the full 15001-character string — this very value is what is handed
to `generatePageJSON` (and echoed back to the caller as `scraped`); no
truncation happens before the Composer. -/
theorem aggregator_output_not_capped :
    firecrawlNormalize (fun _ => "")
        (JVal.obj [("content", JVal.str longContent)]) =
      Except.ok (JVal.str longContent) ∧ 15000 < longContent.length := by
  refine ⟨rfl, ?_⟩
  show 15000 < (List.replicate 15001 'a').length
  rw [List.length_replicate]
  omega

/-- C3 (amended): the cap is applied inside the Prompt Composer, not before
it.  `userPrompt` embeds `(scraped || "").slice(0, 15000)` — so the scraped
text as it occurs in the composed prompt is at most 15,000 characters, with
the excess silently dropped, while the Aggregator's own output is
unbounded. -/
theorem prompt_embeds_capped_scraped (role : JVal) (q scraped : String) :
    (scrapedForPrompt scraped).length ≤ 15000 ∧
    ∃ post : String,
      userPrompt role q scraped =
        ("\nQUERY: " ++ q ++ "\n\nSCRAPED_CONTENT:\n") ++
          scrapedForPrompt scraped ++ post := by
  constructor
  · show ((if scraped = "" then "" else scraped).data.take 15000).length ≤ 15000
    rw [List.length_take]
    exact Nat.min_le_left _ _
  · refine ⟨"\n\nGOALS:\n- Produce structured sections tailored to the selected role.\n- Also return a complete \"html\" page assembled from those sections.\n- Omit sections if source info is missing (do NOT invent).\n" ++
      (match role with
       | .str s => if s = "agent" then agentSuffix
                   else if s = "loan" then loanSuffix
                   else profileSuffix
       | _ => profileSuffix), ?_⟩
    unfold userPrompt userPromptBase
    simp [String.append_assoc]

/-! ## Claim C5: scrape/search path selection -/

/-- C5: path selection in the Aggregator.  A query whose trimmed form
case-insensitively extends `http://` or `https://` (the translated
`/^https?:\/\//i` test) selects the `/scrape` endpoint with body
`{ url: q }` (the untrimmed query) and never `/search`; any other query
selects `/search` with body `{ query: q, limit: 5 }` and never `/scrape`. -/
theorem firecrawl_path_selection (q : String) :
    ((∃ r, lowerStr (jsTrim q) = "http://" ++ r) ∨
        (∃ r, lowerStr (jsTrim q) = "https://" ++ r) →
      firecrawlEndpoint q = "/scrape" ∧
        firecrawlBody q = .obj [("url", .str q)] ∧
        firecrawlEndpoint q ≠ "/search") ∧
    (¬((∃ r, lowerStr (jsTrim q) = "http://" ++ r) ∨
        (∃ r, lowerStr (jsTrim q) = "https://" ++ r)) →
      firecrawlEndpoint q = "/search" ∧
        firecrawlBody q = .obj [("query", .str q), ("limit", .num 5)] ∧
        firecrawlEndpoint q ≠ "/scrape") := by
  have hiff := httpTest_iff (jsTrim q)
  constructor
  · intro h
    have hb : firecrawlIsUrl q = true := hiff.mpr h
    unfold firecrawlEndpoint firecrawlBody
    rw [hb]
    exact ⟨rfl, rfl, by decide⟩
  · intro h
    have hb : firecrawlIsUrl q = false := by
      rcases hb' : firecrawlIsUrl q
      · rfl
      · exact absurd (hiff.mp hb') h
    unfold firecrawlEndpoint firecrawlBody
    rw [hb]
    exact ⟨rfl, rfl, by decide⟩

/-- C5 witness: a concrete URL-shaped query (upper-case scheme, surrounding
whitespace) selects the scrape path with the untrimmed query as `url`. -/
theorem firecrawl_path_selection_witness :
    firecrawlEndpoint " HTTPS://example.com/listing " = "/scrape" ∧
      firecrawlBody " HTTPS://example.com/listing " =
        .obj [("url", .str " HTTPS://example.com/listing ")] ∧
      firecrawlEndpoint " HTTPS://example.com/listing " ≠ "/search" :=
  (firecrawl_path_selection " HTTPS://example.com/listing ").1
    (Or.inr ⟨"example.com/listing", rfl⟩)

/-! ## Claim C6: normalization of provider responses -/

/-- C6 counterexample: the Aggregator is NOT throw-free on unexpected shapes.
Line 61 reads `r.title` with a plain (unguarded) property access, so a
provider response `{ results: [null] }` makes the map callback throw a
`TypeError`, which propagates to the catch and fails the whole request as a
500 — the aggregated join is never produced for that response. -/
theorem firecrawl_null_record_throws :
    firecrawlNormalize (fun _ => "")
        (JVal.obj [("results", JVal.arr [JVal.null])]) =
      Except.error "Cannot read properties of null (reading \x27title\x27)" ∧
    POST (fun _ => Except.ok (JVal.obj [])) (fun _ => "")
        (FetchOutcome.success (JVal.obj [("results", JVal.arr [JVal.null])]))
        (FetchOutcome.success (JVal.obj []))
        (JVal.obj [("q", JVal.str "cabins")]) =
      PostResult.serverError
        "Cannot read properties of null (reading \x27title\x27)" :=
  ⟨rfl, rfl⟩

/-- Mapping the line-61 callback over records that are all non-nullish never
throws and renders each record. -/
theorem firecrawlMapRecords_ok :
    ∀ rs : List JVal, (∀ r ∈ rs, jsNullish r = false) →
      firecrawlMapRecords rs = .ok (rs.map firecrawlRecordRender)
  | [], _ => rfl
  | r :: rest, hall => by
    have hr : jsNullish r = false := hall r (by simp)
    have hline : firecrawlRecordLine r = .ok (firecrawlRecordRender r) := by
      cases r
      · exact absurd hr (by simp [jsNullish])
      · exact absurd hr (by simp [jsNullish])
      all_goals rfl
    have hrest := firecrawlMapRecords_ok rest
      (fun x hx => hall x (by simp [hx]))
    simp only [firecrawlMapRecords, hline, hrest, List.map]

/-- C6 (amended): the Aggregator's normalization (route.ts lines 58-64).
(1) When `data?.results` is an array whose records are each non-nullish, the
output is the records joined with the literal `"\n\n---\n\n"` in provider
order; a record with string fields renders as `title ++ "\n" ++ content` and
one with both fields absent renders as `"\n"` (absent fields become `""`).
A nullish record instead throws (see `firecrawl_null_record_throws`), so the
aggregator is not throw-free.  (2) When `results` is not an array, a
non-nullish `content` field is returned verbatim.  (3) With no usable
`content` either, the output is the host serialization of the raw
response. -/
theorem firecrawl_normalization_cases (stringify : JVal → String)
    (data : JVal) :
    (∀ rs, jsGetField data "results" = JVal.arr rs →
      (∀ r ∈ rs, jsNullish r = false) →
      firecrawlNormalize stringify data =
        .ok (.str (jsJoin "\n\n---\n\n" (rs.map firecrawlRecordRender)))) ∧
    ((∀ rs, jsGetField data "results" ≠ JVal.arr rs) →
      jsNullish (jsGetField data "content") = false →
      firecrawlNormalize stringify data = .ok (jsGetField data "content")) ∧
    ((∀ rs, jsGetField data "results" ≠ JVal.arr rs) →
      jsNullish (jsGetField data "content") = true →
      firecrawlNormalize stringify data = .ok (.str (stringify data))) ∧
    (∀ t c, firecrawlRecordRender
        (.obj [("title", .str t), ("content", .str c)]) = t ++ "\n" ++ c) ∧
    firecrawlRecordRender (.obj []) = "\n" := by
  refine ⟨?_, ?_, ?_, ?_, rfl⟩
  · intro rs h hall
    simp only [firecrawlNormalize, h, firecrawlMapRecords_ok rs hall]
  · intro hno hc
    unfold firecrawlNormalize
    rcases hres : jsGetField data "results" with _ | _ | b | n | s | rs | fs
    · simp [jsCoalesce, hc]
    · simp [jsCoalesce, hc]
    · simp [jsCoalesce, hc]
    · simp [jsCoalesce, hc]
    · simp [jsCoalesce, hc]
    · exact absurd hres (hno rs)
    · simp [jsCoalesce, hc]
  · intro hno hc
    unfold firecrawlNormalize
    rcases hres : jsGetField data "results" with _ | _ | b | n | s | rs | fs
    · simp [jsCoalesce, hc]
    · simp [jsCoalesce, hc]
    · simp [jsCoalesce, hc]
    · simp [jsCoalesce, hc]
    · simp [jsCoalesce, hc]
    · exact absurd hres (hno rs)
    · simp [jsCoalesce, hc]
  · intro t c
    show jsToString (jsCoalesce (JVal.str t) (.str "")) ++ "\n" ++
        jsToString (jsCoalesce (JVal.str c) (.str "")) = t ++ "\n" ++ c
    rfl

/-- C6 witness: a two-record response with one absent `content` joins in
order with the literal separator. -/
theorem firecrawl_normalization_cases_witness :
    firecrawlNormalize (fun _ => "")
        (JVal.obj [("results", JVal.arr
          [JVal.obj [("title", JVal.str "A"), ("content", JVal.str "B")],
            JVal.obj [("title", JVal.str "C")]])]) =
      Except.ok (JVal.str ("A\nB" ++ "\n\n---\n\n" ++ "C\n")) :=
  (firecrawl_normalization_cases (fun _ => "")
      (JVal.obj [("results", JVal.arr
        [JVal.obj [("title", JVal.str "A"), ("content", JVal.str "B")],
          JVal.obj [("title", JVal.str "C")]])])).1
    [JVal.obj [("title", JVal.str "A"), ("content", JVal.str "B")],
      JVal.obj [("title", JVal.str "C")]] rfl (by decide)

/-! ## Claim C4: entry-point validation -/

/-- C4 counterexample: a whitespace-only `q` is NOT rejected.  The check on
line 15 is `if (!q)` — truthiness, not emptiness-after-trimming — and
`" "` is truthy, so the request proceeds through the whole pipeline and (with
well-behaved collaborators) returns a 200 with `q = " "` instead of the
claimed client error. -/
theorem whitespace_q_not_rejected :
    POST (fun _ => Except.ok (JVal.obj [])) (fun _ => "")
        (FetchOutcome.success (JVal.obj [("content", JVal.str "stub")]))
        (FetchOutcome.success (JVal.obj []))
        (JVal.obj [("q", JVal.str " ")]) =
      PostResult.success
        (JVal.obj [("meta", metaDefault), ("sections", JVal.arr []),
          ("html", JVal.str htmlDefault)])
        (JVal.str " ") (JVal.str "agent") (JVal.str "stub") ∧
    ∀ m, POST (fun _ => Except.ok (JVal.obj [])) (fun _ => "")
        (FetchOutcome.success (JVal.obj [("content", JVal.str "stub")]))
        (FetchOutcome.success (JVal.obj []))
        (JVal.obj [("q", JVal.str " ")]) ≠
      PostResult.clientError m := by
  refine ⟨rfl, ?_⟩
  intro m h
  rw [show POST (fun _ => Except.ok (JVal.obj [])) (fun _ => "")
      (FetchOutcome.success (JVal.obj [("content", JVal.str "stub")]))
      (FetchOutcome.success (JVal.obj []))
      (JVal.obj [("q", JVal.str " ")]) =
    PostResult.success
      (JVal.obj [("meta", metaDefault), ("sections", JVal.arr []),
        ("html", JVal.str htmlDefault)])
      (JVal.str " ") (JVal.str "agent") (JVal.str "stub") from rfl] at h
  exact PostResult.noConfusion h

/-- C4 (amended): for an object-shaped request body, the handler returns the
400 client error exactly when the `q` property is falsy (absent, `null`,
`""`, `0`, or `false`) — no trimming is applied, so a whitespace-only `q` is
processed normally — and the `role` of the response defaults to `"agent"`
exactly when the `role` property is absent. -/
theorem entry_validation (parse : String → Except String JVal)
    (stringify : JVal → String) (fcResp orResp : FetchOutcome)
    (fs : List (String × JVal)) :
    (jsFalsy (lookupField fs "q") = true →
      POST parse stringify fcResp orResp (.obj fs) =
        .clientError "Missing input \x27q\x27.") ∧
    (jsFalsy (lookupField fs "q") = false →
      ∀ m, POST parse stringify fcResp orResp (.obj fs) ≠ .clientError m) ∧
    (lookupField fs "role" = JVal.undef →
      destructuredRole (.obj fs) = .str "agent") := by
  refine ⟨?_, ?_, ?_⟩
  · intro h
    show (if jsFalsy (destructuredQ (JVal.obj fs)) then _ else _) = _
    rw [show destructuredQ (JVal.obj fs) = lookupField fs "q" from rfl,
      if_pos h]
  · intro h m
    show (if jsFalsy (destructuredQ (JVal.obj fs)) then _ else _) ≠ _
    rw [show destructuredQ (JVal.obj fs) = lookupField fs "q" from rfl,
      if_neg (by rw [h]; exact Bool.false_ne_true)]
    repeat' split
    all_goals exact fun hc => PostResult.noConfusion hc
  · intro h
    show (match jsGetField (JVal.obj fs) "role" with
      | JVal.undef => JVal.str "agent"
      | v => v) = JVal.str "agent"
    rw [show jsGetField (JVal.obj fs) "role" = lookupField fs "role" from rfl,
      h]

/-- C4 witness: a body with no `q` property at all is rejected with the 400
message; a body whose `role` is absent reports role `"agent"`. -/
theorem entry_validation_witness :
    POST (fun _ => Except.ok (JVal.obj [])) (fun _ => "")
        (FetchOutcome.success (JVal.obj []))
        (FetchOutcome.success (JVal.obj [])) (JVal.obj []) =
      PostResult.clientError "Missing input \x27q\x27." :=
  (entry_validation (fun _ => Except.ok (JVal.obj [])) (fun _ => "")
    (FetchOutcome.success (JVal.obj []))
    (FetchOutcome.success (JVal.obj [])) []).1 rfl

/-! ## Claim C7: parse failure surfaces as an error, not a defaulted page -/

/-- C7: when the LLM's returned text fails to parse (`JSON.parse` throws with
message `m`), the request fails with the 500 error carrying that message (the
spec's `GenerationParseError` surfaced to the caller) and no defaulted page is
returned — defaulting never runs on an unparseable response. -/
theorem parse_failure_is_error (parse : String → Except String JVal)
    (stringify : JVal → String) (fcData orData scrapedV : JVal)
    (fs : List (String × JVal)) (q sIn m : String)
    (hq : lookupField fs "q" = JVal.str q) (hqne : q ≠ "")
    (hnorm : firecrawlNormalize stringify fcData = Except.ok scrapedV)
    (hscr : scrapedAsPromptInput scrapedV = Except.ok sIn)
    (hparse : parse (generateText orData) = Except.error m) :
    POST parse stringify (.success fcData) (.success orData) (.obj fs) =
      .serverError (errOrDefault m) ∧
    ∀ pg qv rv sv,
      POST parse stringify (.success fcData) (.success orData) (.obj fs) ≠
        .success pg qv rv sv := by
  have hmain : POST parse stringify (.success fcData) (.success orData)
      (.obj fs) = .serverError (errOrDefault m) := by
    simp only [POST, destructuredQ, jsGetField, hq, jsFalsy, hqne,
      firecrawlRun, hnorm, generateRun, hscr, hparse, decide_False,
      Bool.false_eq_true, if_false]
  exact ⟨hmain, fun pg qv rv sv hc => by
    rw [hmain] at hc
    exact PostResult.noConfusion hc⟩

/-- C7 witness: with a concretely failing `JSON.parse`, the handler returns
the 500 carrying the parse error message. -/
theorem parse_failure_is_error_witness :
    POST (fun _ => Except.error "Unexpected token") (fun _ => "")
        (FetchOutcome.success (JVal.obj [("content", JVal.str "stub")]))
        (FetchOutcome.success (JVal.obj []))
        (JVal.obj [("q", JVal.str "123 Main St")]) =
      PostResult.serverError (errOrDefault "Unexpected token") :=
  (parse_failure_is_error (fun _ => Except.error "Unexpected token")
    (fun _ => "") (JVal.obj [("content", JVal.str "stub")]) (JVal.obj [])
    (JVal.str "stub")
    [("q", JVal.str "123 Main St")] "123 Main St" "stub" "Unexpected token"
    rfl (by decide) rfl rfl rfl).1

/-! ## Claim C8: an empty-object LLM response yields a fully defaulted page -/

/-- The fully defaulted page: default meta, empty sections, placeholder
html. -/
def fullyDefaultedPage : JVal :=
  .obj [("meta", metaDefault), ("sections", .arr []),
    ("html", .str htmlDefault)]

/-- C8: when the LLM text parses to the empty object, the request is a
success carrying the fully defaulted page (default `meta`, empty `sections`,
placeholder `html`) — not an error. -/
theorem empty_object_fully_defaults (parse : String → Except String JVal)
    (stringify : JVal → String) (fcData orData scrapedV : JVal)
    (fs : List (String × JVal)) (q sIn : String)
    (hq : lookupField fs "q" = JVal.str q) (hqne : q ≠ "")
    (hnorm : firecrawlNormalize stringify fcData = Except.ok scrapedV)
    (hscr : scrapedAsPromptInput scrapedV = Except.ok sIn)
    (hcontent : openrouterContent orData = JVal.str "\x7b\x7d")
    (hparse : parse "\x7b\x7d" = Except.ok (JVal.obj [])) :
    POST parse stringify (.success fcData) (.success orData) (.obj fs) =
      .success fullyDefaultedPage (JVal.str q)
        (destructuredRole (.obj fs)) scrapedV := by
  have htext : generateText orData = "\x7b\x7d" := by
    simp [generateText, hcontent, jsCoalesce, jsNullish, jsToString]
  simp only [POST, destructuredQ, jsGetField, hq, jsFalsy, hqne,
    firecrawlRun, hnorm, generateRun, htext, hparse, decide_False,
    Bool.false_eq_true, if_false, hscr, applyDefaults]
  rfl

/-- C8 witness: concrete collaborators returning `"{}"` produce the fully
defaulted page as a 200. -/
theorem empty_object_fully_defaults_witness :
    POST (fun s => if s = "\x7b\x7d" then Except.ok (JVal.obj [])
        else Except.error "bad") (fun _ => "")
      (FetchOutcome.success (JVal.obj [("content", JVal.str "stub")]))
      (FetchOutcome.success (JVal.obj [("choices", JVal.arr
        [JVal.obj [("message", JVal.obj
          [("content", JVal.str "\x7b\x7d")])]])]))
      (JVal.obj [("q", JVal.str "123 Main St")]) =
    PostResult.success fullyDefaultedPage (JVal.str "123 Main St")
      (JVal.str "agent") (JVal.str "stub") :=
  empty_object_fully_defaults
    (fun s => if s = "\x7b\x7d" then Except.ok (JVal.obj [])
      else Except.error "bad") (fun _ => "")
    (JVal.obj [("content", JVal.str "stub")])
    (JVal.obj [("choices", JVal.arr
      [JVal.obj [("message", JVal.obj [("content", JVal.str "\x7b\x7d")])]])])
    (JVal.str "stub")
    [("q", JVal.str "123 Main St")] "123 Main St" "stub"
    rfl (by decide) rfl rfl rfl rfl

/-! ## Claim C10: a response with no text defaults to an empty page -/

/-- C10: if the LLM call succeeds but `data?.choices?.[0]?.message?.content`
is absent or `null`, the generator substitutes the literal `"{}"` before
parsing, so (with the host's `JSON.parse` of `"{}"` yielding the empty
object) the request completes as a success whose page consists entirely of
the defaults, rather than failing. -/
theorem missing_content_defaults (parse : String → Except String JVal)
    (stringify : JVal → String) (fcData orData scrapedV : JVal)
    (fs : List (String × JVal)) (q sIn : String)
    (hq : lookupField fs "q" = JVal.str q) (hqne : q ≠ "")
    (hnorm : firecrawlNormalize stringify fcData = Except.ok scrapedV)
    (hscr : scrapedAsPromptInput scrapedV = Except.ok sIn)
    (hcontent : openrouterContent orData = JVal.undef ∨
      openrouterContent orData = JVal.null)
    (hparse : parse "\x7b\x7d" = Except.ok (JVal.obj [])) :
    generateText orData = "\x7b\x7d" ∧
    POST parse stringify (.success fcData) (.success orData) (.obj fs) =
      .success fullyDefaultedPage (JVal.str q)
        (destructuredRole (.obj fs)) scrapedV := by
  have htext : generateText orData = "\x7b\x7d" := by
    rcases hcontent with hc | hc
    · simp [generateText, hc, jsCoalesce, jsNullish, jsToString]
    · simp [generateText, hc, jsCoalesce, jsNullish, jsToString]
  refine ⟨htext, ?_⟩
  simp only [POST, destructuredQ, jsGetField, hq, jsFalsy, hqne,
    firecrawlRun, hnorm, generateRun, htext, hparse, decide_False,
    Bool.false_eq_true, if_false, hscr, applyDefaults]
  rfl

/-- C10 witness: an ok LLM response with no `choices` at all still yields the
fully defaulted page as a 200. -/
theorem missing_content_defaults_witness :
    generateText (JVal.obj []) = "\x7b\x7d" ∧
    POST (fun s => if s = "\x7b\x7d" then Except.ok (JVal.obj [])
        else Except.error "bad") (fun _ => "")
      (FetchOutcome.success (JVal.obj [("content", JVal.str "stub")]))
      (FetchOutcome.success (JVal.obj []))
      (JVal.obj [("q", JVal.str "123 Main St")]) =
    PostResult.success fullyDefaultedPage (JVal.str "123 Main St")
      (JVal.str "agent") (JVal.str "stub") :=
  missing_content_defaults
    (fun s => if s = "\x7b\x7d" then Except.ok (JVal.obj [])
      else Except.error "bad") (fun _ => "")
    (JVal.obj [("content", JVal.str "stub")]) (JVal.obj [])
    (JVal.str "stub")
    [("q", JVal.str "123 Main St")] "123 Main St" "stub"
    rfl (by decide) rfl rfl (Or.inl rfl) rfl

/-! ## Claim C9: Markdown heading round-trip -/

/-- Right-trimming a list that ends in a right-trimmed nonempty block plus a
newline removes exactly that newline. -/
theorem trimRightL_block (pre Zd : List Char) (hZne : Zd ≠ [])
    (hZr : Zd.reverse.dropWhile Char.isWhitespace = Zd.reverse) :
    trimRightL (pre ++ Zd ++ ['\n']) = pre ++ Zd := by
  rcases hrev : Zd.reverse with _ | ⟨c, t⟩
  · exact absurd (List.reverse_eq_nil_iff.mp hrev) hZne
  · have hc : Char.isWhitespace c = false := by
      rw [hrev] at hZr
      exact head_false_of_dropWhile_self hZr
    have h1 : trimRightL (pre ++ Zd ++ ['\n']) =
        (('\n' :: (Zd.reverse ++ pre.reverse)).dropWhile
          Char.isWhitespace).reverse := by
      unfold trimRightL
      simp [List.reverse_append]
    rw [h1, List.dropWhile_cons_of_pos (by decide), hrev, List.cons_append,
      List.dropWhile_cons_of_neg (by simp [hc]),
      show c :: (t ++ pre.reverse) = (c :: t) ++ pre.reverse from rfl,
      ← hrev, List.reverse_append, List.reverse_reverse, List.reverse_reverse]

/-- Trimming a string that starts with a non-whitespace character and ends in
a right-trimmed nonempty block plus a newline keeps the head and drops
exactly the newline. -/
theorem jsTrim_block (pre Zd : List Char) (c : Char)
    (hc : Char.isWhitespace c = false) (hZne : Zd ≠ [])
    (hZr : Zd.reverse.dropWhile Char.isWhitespace = Zd.reverse) :
    trimRightL (trimLeftL (c :: (pre ++ (Zd ++ ['\n'])))) =
      c :: (pre ++ Zd) := by
  have hl : trimLeftL (c :: (pre ++ (Zd ++ ['\n']))) =
      c :: (pre ++ (Zd ++ ['\n'])) := by
    unfold trimLeftL
    rw [List.dropWhile_cons_of_neg (by simp [hc])]
  rw [hl]
  have hb := trimRightL_block (c :: pre) Zd hZne hZr
  simpa using hb

/-- C9: `toMarkdown` preserves structure at the heading level.  For a page
with `meta.title = X` and exactly one section `{title: Y, html: <p>Z</p>}`
(with `X`, `Y` nonempty and `Z` a nonempty right-trimmed text whose DOM
reduction of `<p>Z</p>` is `Z`), the output is exactly
`# X`, blank line, `## Y`, blank line, then the plain text `Z` — the
section's HTML tags are gone from the Markdown. -/
theorem toMarkdown_heading_roundtrip (domText : String → String)
    (X Y Z sid : String) (hX : X ≠ "") (hY : Y ≠ "")
    (hstrip : stripHtml domText ("<p>" ++ Z ++ "</p>") = Z)
    (hZne : Z ≠ "")
    (hZr : Z.data.reverse.dropWhile Char.isWhitespace = Z.data.reverse) :
    toMarkdown domText
      (some ⟨some ⟨some X, none⟩, some [⟨sid, Y, "<p>" ++ Z ++ "</p>"⟩],
        none⟩) =
      "# " ++ X ++ "\n\n## " ++ Y ++ "\n\n" ++ Z := by
  have hhtml : ("<p>" ++ Z ++ "</p>") ≠ "" := by
    intro h
    have hd := congrArg String.data h
    rw [String.data_append, String.data_append,
      show ("<p>" : String).data = ['<', 'p', '>'] from rfl] at hd
    exact List.noConfusion hd
  have hZdne : Z.data ≠ [] := by
    intro h
    exact hZne (str_ext (by rw [h]))
  have h1 : toMarkdown domText
      (some ⟨some ⟨some X, none⟩, some [⟨sid, Y, "<p>" ++ Z ++ "</p>"⟩],
        none⟩) =
      jsTrim (jsJoin "\n" ["# " ++ X, "", "## " ++ Y, "", Z, ""]) := by
    simp [toMarkdown, strTruthyOr, hX, hY, hhtml, hstrip]
  rw [h1]
  have hdata : (jsJoin "\n" ["# " ++ X, "", "## " ++ Y, "", Z, ""]).data =
      '#' :: ((' ' :: (X.data ++ ('\n' :: '\n' :: '#' :: '#' :: ' ' ::
        (Y.data ++ ['\n', '\n'])))) ++ (Z.data ++ ['\n'])) := by
    simp [jsJoin, String.data_append,
      show ("# " : String).data = ['#', ' '] from rfl,
      show ("## " : String).data = ['#', '#', ' '] from rfl,
      show ("\n" : String).data = ['\n'] from rfl,
      show ("" : String).data = [] from rfl]
  have htgt : ("# " ++ X ++ "\n\n## " ++ Y ++ "\n\n" ++ Z).data =
      '#' :: ((' ' :: (X.data ++ ('\n' :: '\n' :: '#' :: '#' :: ' ' ::
        (Y.data ++ ['\n', '\n'])))) ++ Z.data) := by
    simp [String.data_append,
      show ("# " : String).data = ['#', ' '] from rfl,
      show ("\n\n## " : String).data = ['\n', '\n', '#', '#', ' '] from rfl,
      show ("\n\n" : String).data = ['\n', '\n'] from rfl]
  refine str_ext ?_
  show trimRightL (trimLeftL
      (jsJoin "\n" ["# " ++ X, "", "## " ++ Y, "", Z, ""]).data) =
    ("# " ++ X ++ "\n\n## " ++ Y ++ "\n\n" ++ Z).data
  rw [hdata, htgt,
    show '#' :: ((' ' :: (X.data ++ ('\n' :: '\n' :: '#' :: '#' :: ' ' ::
        (Y.data ++ ['\n', '\n'])))) ++ (Z.data ++ ['\n'])) =
      '#' :: (((' ' :: (X.data ++ ('\n' :: '\n' :: '#' :: '#' :: ' ' ::
        (Y.data ++ ['\n', '\n']))))) ++ (Z.data ++ ['\n'])) from rfl]
  exact jsTrim_block _ Z.data '#' (by decide) hZdne hZr

/-- C9 witness: a concrete page titled `X`, one section `Y` over `<p>Z</p>`,
with a DOM reduction returning `Z`, yields exactly the expected Markdown. -/
theorem toMarkdown_heading_roundtrip_witness :
    toMarkdown (fun _ => "Z")
      (some ⟨some ⟨some "X", none⟩, some [⟨"sec", "Y", "<p>" ++ "Z" ++ "</p>"⟩],
        none⟩) =
      "# " ++ "X" ++ "\n\n## " ++ "Y" ++ "\n\n" ++ "Z" :=
  toMarkdown_heading_roundtrip (fun _ => "Z") "X" "Y" "Z" "sec"
    (by decide) (by decide) rfl (by decide) rfl
